import Mathlib

/-!
Shallow embedding of the DNP3 object code generator
(scripts/dnp3-gen/dnp3-gen.py) and of the C code its templates emit: the
record-strategy and packed-strategy object decoders, the schema validator
(preprocess_object), the top-level dispatch entry point, the Lua and JSON
serialization emitters, and the main generation pipeline.

Bytes are modelled as Nat reduced mod 256 at the read primitives; the
by-reference cursor (const uint8_t **buf, uint32_t *len) is modelled as a
List Nat holding the remaining bytes.  A read or memcpy of more bytes than
remain is undefined behaviour in the generated C (the code would read past
the caller buffer and the *len -= n update would wrap); the embedding
signals that case with a distinguished oob outcome.
-/

namespace DNP3

/-- One emitted extraction line of the embedded bit-field (bstr8) block of
the record-strategy decoder template: `object->name = (octet >> shift) & mask;`
where the mask is `0x1`, `0x3`, `0xf` or `0x7f` for the declared widths
1, 2, 4, 7; any other width makes the template call `raise` ("Unhandled
width"), modelled as `none`. -/
def bstr8Line (octet shift w : Nat) : Option Nat :=
  if w = 1 then some ((octet >>> shift) &&& 0x1)
  else if w = 2 then some ((octet >>> shift) &&& 0x3)
  else if w = 4 then some ((octet >>> shift) &&& 0xf)
  else if w = 7 then some ((octet >>> shift) &&& 0x7f)
  else none

/-- Subfield values produced by the emitted bstr8 block, one per declared
subfield width.  The template binds `shift` with a `set` outside the
subfield loop and re-binds `shift = shift + field.width` at the bottom of
the loop body; in Jinja2 an assignment made inside a `for` body is local to
that iteration (assignments in loops are cleared at the end of the
iteration and cannot outlive the loop scope), so every iteration reads
`shift` as the outer binding (`shiftOuter`, 0 at the template site) and the
re-binding never reaches the next iteration.  The recursive call therefore
keeps `shiftOuter` unchanged. -/
def bstr8Fields (shiftOuter octet : Nat) : List Nat → Option (List Nat)
  | [] => some []
  | w :: ws =>
    match bstr8Line octet shiftOuter w with
    | none => none
    | some v =>
      match bstr8Fields shiftOuter octet ws with
      | none => none
      | some vs => some (v :: vs)

/-- Modelled from the spec: the extraction the claim describes (and the
template's `set shift = shift + field.width` line intends), the shift
accumulating the widths of all prior subfields. -/
def bstr8FieldsSpec (shift octet : Nat) : List Nat → Option (List Nat)
  | [] => some []
  | w :: ws =>
    match bstr8Line octet shift w with
    | none => none
    | some v =>
      match bstr8FieldsSpec (shift + w) octet ws with
      | none => none
      | some vs => some (v :: vs)

/-- Field type tags of the generator's schema, as dispatched on by the
decoder template (chararray carries the declared storage size; bstr8
carries its named subfields with their declared widths). -/
inductive Ftype
  | uint8 | uint16 | uint24 | uint32 | uint64
  | int16 | int32
  | flt32 | flt64
  | dnp3time
  | vstr4
  | bytearray
  | chararray (size : Nat)
  | bstr8 (subs : List (String × Nat))
  deriving DecidableEq, Repr

/-- A field of an object definition as the decoder template consumes it:
its type, its name, the name of the sibling length field (for bytearray
and chararray) and the len_from_prefix flag. -/
structure Field where
  ftype : Ftype
  name : String
  lenField : String
  lenFromPfx : Bool
  deriving DecidableEq, Repr

/-- Number of wire bytes the generated decoder reads for a fixed-width
field (the DNP3ReadUintN helper it calls): 24-bit integers take 3 bytes
and dnp3time 6 bytes; floats are read through the same-width integer
reads, bit pattern preserved. -/
def Ftype.wireBytes : Ftype → Nat
  | .uint8 => 1
  | .uint16 => 2
  | .uint24 => 3
  | .uint32 => 4
  | .uint64 => 8
  | .int16 => 2
  | .int32 => 4
  | .flt32 => 4
  | .flt64 => 8
  | .dnp3time => 6
  | _ => 0

/-- Stored value of one struct member of a decoded point: integer storage
(also holding float bit patterns and bit-field subfields), an owned
bytearray buffer, or text-buffer contents up to the runtime length. -/
inductive Val
  | num (n : Nat)
  | bytes (bs : List Nat)
  | str (bs : List Nat)
  deriving DecidableEq, Repr

/-- Modelled from the spec: the runtime read helpers (DNP3ReadUint8 up to
DNP3ReadUint64, absent from src/) read exactly k bytes from the cursor and
fail when fewer than k remain; each wire byte is a uint8_t, modelled by
reducing mod 256; the spec fixes no byte order, modelled little-endian. -/
def readBytesLE : Nat → List Nat → Option (Nat × List Nat)
  | 0, buf => some (0, buf)
  | _ + 1, [] => none
  | k + 1, b :: buf =>
    match readBytesLE k buf with
    | none => none
    | some (v, rest) => some (v * 256 + b % 256, rest)

/-- Modelled from the spec: DNP3ReadPrefix (absent from src/) reads the
point's address or size value as selected by the prefix code: code 0
carries no bytes on the wire and yields 0, a nonzero code reads the value
(the spec fixes no widths; modelled as a single byte) and fails when the
cursor is empty. -/
def readPfx (pfxCode : Nat) (buf : List Nat) : Option (Nat × List Nat) :=
  if pfxCode = 0 then some (0, buf) else readBytesLE 1 buf

/-- The uint32_t subtraction `a - b` of the generated C, wrapping mod 2^32
(used by the len_from_prefix length computation). -/
def sub32 (a b : Nat) : Nat := (a + 2 ^ 32 - b % 2 ^ 32) % 2 ^ 32

/-- Value of an integer struct member: the decode struct is SCCalloc
zero-initialized, so a member that was never assigned reads as 0. -/
def getNum (vals : List (String × Val)) (name : String) : Nat :=
  match vals.lookup name with
  | some (Val.num n) => n
  | _ => 0

/-- Contents of a text struct member (chararray or vstr4): the bytes the
decoder copied in, up to the runtime length; an unassigned member is the
zeroed buffer, read as empty. -/
def getStr (vals : List (String × Val)) (name : String) : List Nat :=
  match vals.lookup name with
  | some (Val.str bs) => bs
  | _ => []

/-- Contents of an owned bytearray member. -/
def getBytes (vals : List (String × Val)) (name : String) : List Nat :=
  match vals.lookup name with
  | some (Val.bytes bs) => bs
  | _ => []

/-- Mutable state of one record decode: the cursor's remaining bytes, the
struct members assigned so far (most recent first) and the names of the
owned bytearray buffers SCCalloc has allocated into the record so far. -/
structure RecSt where
  buf : List Nat
  vals : List (String × Val)
  owned : List String
  deriving DecidableEq, Repr

/-- Outcome of decoding one field: success, the controlled `goto error`
failure path, or an out-of-bounds access (the generated C reading past the
remaining bytes, undefined behaviour). -/
inductive FR
  | ok (st : RecSt)
  | err (st : RecSt)
  | oob (st : RecSt)
  deriving DecidableEq, Repr

/-- Decode of one field by the generated record-strategy routine, from the
per-field branches of the decoder template.  `pfxVal` is the decoded
prefix and `offset` the remaining-length snapshot `offset = *len` taken
just after the prefix read, so `offset - st.buf.length` is the number of
bytes consumed since the start of the record.

The chararray branch mirrors the template exactly: unlike the bytearray
branch it performs no `*len < length` check before its memcpy, so a
runtime length above the remaining byte count reads past the buffer
(`oob`); the terminator store at the runtime length is implicit in
recording only the copied bytes.  The bstr8 branch reads one byte and
assigns every subfield the value `(octet >> 0) & mask`, the Jinja2
loop-local `shift` never advancing (see `bstr8Fields`); masks follow
`bstr8Line` for the supported widths. -/
def decodeField (pfxVal offset : Nat) (st : RecSt) (f : Field) : FR :=
  match f.ftype with
  | .uint8 | .uint16 | .uint24 | .uint32 | .uint64
  | .int16 | .int32 | .flt32 | .flt64 | .dnp3time =>
    match readBytesLE f.ftype.wireBytes st.buf with
    | none => FR.err st
    | some (v, rest) =>
      FR.ok { st with buf := rest, vals := (f.name, Val.num v) :: st.vals }
  | .vstr4 =>
    if st.buf.length < 4 then FR.err st
    else
      FR.ok { st with
                buf := st.buf.drop 4,
                vals := (f.name, Val.str (st.buf.take 4)) :: st.vals }
  | .bytearray =>
    let st1 :=
      if f.lenFromPfx then
        { st with vals :=
            (f.lenField, Val.num (sub32 pfxVal (offset - st.buf.length))) :: st.vals }
      else st
    let n := getNum st1.vals f.lenField
    if 0 < n then
      if st1.buf.length < n then FR.err st1
      else
        FR.ok { st1 with
                  buf := st1.buf.drop n,
                  vals := (f.name, Val.bytes (st1.buf.take n)) :: st1.vals,
                  owned := f.name :: st1.owned }
    else FR.ok st1
  | .chararray _ =>
    let st1 :=
      if f.lenFromPfx then
        { st with vals :=
            (f.lenField, Val.num (sub32 pfxVal (offset - st.buf.length))) :: st.vals }
      else st
    let n := getNum st1.vals f.lenField
    if 0 < n then
      if st1.buf.length < n then FR.oob st1
      else
        FR.ok { st1 with
                  buf := st1.buf.drop n,
                  vals := (f.name, Val.str (st1.buf.take n)) :: st1.vals }
    else FR.ok { st1 with vals := (f.name, Val.str []) :: st1.vals }
  | .bstr8 subs =>
    match readBytesLE 1 st.buf with
    | none => FR.err st
    | some (octet, rest) =>
      FR.ok { st with
                buf := rest,
                vals := (subs.map
                  (fun s => (s.1, Val.num ((octet >>> 0) &&& (2 ^ s.2 - 1))))).reverse
                  ++ st.vals }

/-- Decode the fields of one record in declared order, stopping at the
first failure (the template's `goto error`). -/
def decodeFieldList (pfxVal offset : Nat) : List Field → RecSt → FR
  | [], st => FR.ok st
  | f :: fs, st =>
    match decodeField pfxVal offset st f with
    | FR.ok st1 => decodeFieldList pfxVal offset fs st1
    | r => r

/-- One decoded point as appended to the output point list: its index,
prefix code, decoded prefix value and struct members. -/
structure Point where
  index : Nat
  pfxCode : Nat
  pfxVal : Nat
  vals : List (String × Val)
  deriving DecidableEq, Repr

/-- Outcome of a whole record-strategy object decode.  `err` is the
routine's failure return: the error path frees the just-allocated struct
(`if (object != NULL) SCFree(object)`) but nothing else, so `leaked` lists
the owned bytearray buffers of the failed record that were allocated and
never freed; the output point list `points` is whatever had been appended
when the failure occurred.  `oob` marks a chararray over-read (undefined
behaviour in the C, nothing meaningful after it). -/
inductive ObjR
  | ok (points : List Point) (buf : List Nat)
  | err (points : List Point) (leaked : List String) (buf : List Nat)
  | oob (points : List Point) (leaked : List String)
  deriving DecidableEq, Repr

/-- The generated record-strategy object decode loop (`while (count--)`):
each iteration SCCallocs a fresh struct, reads the prefix, snapshots
`offset = *len`, decodes the fields in order, and on success appends the
point (DNP3AddPoint, absent from src/, modelled from the spec as appending
to the output list) and advances the index.  Constraint checks precede the
loop in the template and are not exercised by the claims; allocation
failure of SCCalloc is likewise outside the model. -/
def decodeRecords (fields : List Field) (pfxCode : Nat) :
    Nat → Nat → List Nat → List Point → ObjR
  | 0, _, buf, points => ObjR.ok points buf
  | count + 1, index, buf, points =>
    match readPfx pfxCode buf with
    | none => ObjR.err points [] buf
    | some (p, buf1) =>
      match decodeFieldList p buf1.length fields { buf := buf1, vals := [], owned := [] } with
      | FR.ok st =>
        decodeRecords fields pfxCode count (index + 1) st.buf
          (points ++ [{ index := index, pfxCode := pfxCode, pfxVal := p, vals := st.vals }])
      | FR.err st => ObjR.err points st.owned st.buf
      | FR.oob st => ObjR.oob points st.owned

/-! Schema validator (preprocess_object) and generation pipeline (main). -/

/-- One field entry of the raw schema as preprocess_object sees it: the
keys of its mapping (in order), the value of its type key, whether
len_from_prefix is present and truthy, and the subfield widths of a bstr8
group. -/
structure RawField where
  keys : List String
  ftype : String
  lenFromPfx : Bool
  widths : List Nat
  deriving DecidableEq, Repr

/-- One object entry of the raw schema: group, variation, the keys of the
object mapping, whether an unimplemented marker is present, its fields,
its constraint keys, its extra-field types and the packed flag. -/
structure RawObject where
  group : Nat
  variation : Nat
  keys : List String
  unimplemented : Bool
  fields : List RawField
  constraints : List String
  extraFields : List String
  packed : Bool
  deriving DecidableEq, Repr

/-- The allow-listed object keys (valid_keys in preprocess_object). -/
def validKeys : List String :=
  ["group", "variation", "constraints", "extra_fields", "fields", "packed"]

/-- The allow-listed field keys (valid_field_keys in preprocess_object). -/
def validFieldKeys : List String :=
  ["type", "name", "width", "len_from_prefix", "len_field", "fields", "size"]

/-- First key of ks outside the allow list, in iteration order (the key on
which the validation loop calls sys.exit). -/
def firstInvalid (valid ks : List String) : Option String :=
  ks.find? (fun k => !valid.contains k)

/-- Result of preprocess_object: the object is dropped (unimplemented),
the run exits nonzero printing "Invalid key k in object g:v", the run dies
on the bare `assert(width == 8)` (an AssertionError carrying no group or
variation), or the object is kept with its derived _track_offset flag. -/
inductive PreR
  | dropped
  | exitKey (g v : Nat) (k : String)
  | assertFail
  | ok (trackOffset : Bool)
  deriving DecidableEq, Repr

/-- Sum of the subfield widths of a bstr8 group (the width accumulation
loop before the assert). -/
def widthSum (ws : List Nat) : Nat := ws.foldl (fun a w => a + w) 0

/-- The field loop of preprocess_object, in source order: check the field
keys (exit nonzero on the first unknown one), then, if the field sets
len_from_prefix, set _track_offset and `break` — leaving every later field
unchecked — and otherwise, for a bstr8 field, assert that the subfield
widths sum to 8. -/
def checkFields (g v : Nat) : List RawField → PreR
  | [] => PreR.ok false
  | f :: fs =>
    match firstInvalid validFieldKeys f.keys with
    | some k => PreR.exitKey g v k
    | none =>
      if f.lenFromPfx then PreR.ok true
      else if f.ftype = "bstr8" then
        if widthSum f.widths = 8 then checkFields g v fs else PreR.assertFail
      else checkFields g v fs

/-- preprocess_object: report and drop an unimplemented object, else check
the object keys and then run the field loop. -/
def preprocessObject (o : RawObject) : PreR :=
  if o.unimplemented then PreR.dropped
  else
    match firstInvalid validKeys o.keys with
    | some k => PreR.exitKey o.group o.variation k
    | none => checkFields o.group o.variation o.fields

/-- The fields the validation loop actually examines: everything up to and
including the first field with len_from_prefix set (the `break`). -/
def checkedFields : List RawField → List RawField
  | [] => []
  | f :: fs => if f.lenFromPfx then [f] else f :: checkedFields fs

/-- The object list main hands to the emitters: preprocess_object is
mapped over the schema (eagerly, Python 2 map), unimplemented objects are
filtered out, and any validation failure kills the run (none). -/
def mainObjects : List RawObject → Option (List RawObject)
  | [] => some []
  | o :: os =>
    match preprocessObject o with
    | PreR.dropped => mainObjects os
    | PreR.ok _ => (mainObjects os).map (fun l => o :: l)
    | _ => none

/-- is_integer_type from the generator. -/
def is_integer_type (t : String) : Bool :=
  ["uint64", "uint32", "uint24", "uint16", "uint8",
   "int64", "int32", "int16", "int8", "dnp3time"].contains t

/-- Field types the struct emitter template handles; any other type makes
the template call raise ("Unknown datatype type ..."), failing that
emitter.  bstr8 is emitted as bitfield members for any widths. -/
def structsFieldTypes : List String :=
  ["bstr8", "int16", "int32", "uint8", "uint16", "uint24", "uint32",
   "uint64", "flt32", "flt64", "dnp3time", "bytearray", "vstr4", "chararray"]

/-- Extra-field types the struct emitter handles (its restricted
integer-only subset). -/
def structsExtraTypes : List String := ["uint8", "uint16", "uint32"]

/-- Whether rendering the struct template succeeds for an object list. -/
def structsRenderOk (objs : List RawObject) : Bool :=
  objs.all fun o =>
    o.fields.all (fun f => structsFieldTypes.contains f.ftype) &&
    o.extraFields.all (fun t => structsExtraTypes.contains t)

/-- Field types the record-strategy decoder template handles besides
bstr8. -/
def decoderFieldTypes : List String :=
  ["int16", "int32", "uint8", "uint16", "uint24", "uint32", "uint64",
   "flt32", "flt64", "dnp3time", "vstr4", "bytearray", "chararray"]

/-- Whether the decoder template renders a field: a bstr8 group needs
every subfield width in 1, 2, 4, 7 (else raise "Unhandled width"), any
other type must be in the handled list (else raise "Unhandled
datatype"). -/
def decoderFieldOk (f : RawField) : Bool :=
  if f.ftype = "bstr8" then f.widths.all (fun w => [1, 2, 4, 7].contains w)
  else decoderFieldTypes.contains f.ftype

/-- Whether rendering the decoder template succeeds: a packed object's
branch contains no raise call (an unsupported packed width only emits an
`#error` line into the generated C); a record-strategy object needs its
constraint keys in the handled set (else raise "Unhandled constraint") and
every field renderable. -/
def decoderRenderOk (objs : List RawObject) : Bool :=
  objs.all fun o =>
    if o.packed then true
    else
      o.constraints.all
        (fun c => ["require_size_prefix", "require_prefix_code"].contains c) &&
      o.fields.all decoderFieldOk

/-- Whether the Lua and JSON binding templates render a field: both accept
exactly the integer types, floats, chararray, vstr4, bytearray and bstr8,
and raise ("Unhandled datatype") otherwise. -/
def bindingFieldOk (f : RawField) : Bool :=
  is_integer_type f.ftype ||
  ["flt32", "flt64", "chararray", "vstr4", "bytearray", "bstr8"].contains f.ftype

/-- Whether rendering the Lua binding template succeeds. -/
def luaRenderOk (objs : List RawObject) : Bool :=
  objs.all fun o => o.fields.all bindingFieldOk

/-- Whether rendering the JSON template succeeds. -/
def jsonRenderOk (objs : List RawObject) : Bool :=
  objs.all fun o => o.fields.all bindingFieldOk

/-- Which generated target files the run has modified: the structs header,
the decoders file, the Lua bindings file and the JSON file, written in
that order by main. -/
structure GenFiles where
  structsH : Bool
  decodersC : Bool
  luaC : Bool
  jsonC : Bool
  deriving DecidableEq, Repr

/-- Outcome of a generation run: normal completion or sys.exit(1) (also
covering the AssertionError, which likewise terminates with a nonzero
status), each recording the files modified so far. -/
inductive RunResult
  | ok (files : GenFiles)
  | exit1 (files : GenFiles)
  deriving DecidableEq, Repr

/-- The main generation pipeline: validate every object (eagerly, before
any emission), then run the four emitters in order, each rendering its
whole template before opening its target file, so a render failure exits
nonzero leaving its own target untouched — but every file written by an
earlier emitter has already been modified. -/
def runMain (raws : List RawObject) : RunResult :=
  match mainObjects raws with
  | none => RunResult.exit1 { structsH := false, decodersC := false, luaC := false, jsonC := false }
  | some objs =>
    if !structsRenderOk objs then
      RunResult.exit1 { structsH := false, decodersC := false, luaC := false, jsonC := false }
    else if !decoderRenderOk objs then
      RunResult.exit1 { structsH := true, decodersC := false, luaC := false, jsonC := false }
    else if !luaRenderOk objs then
      RunResult.exit1 { structsH := true, decodersC := true, luaC := false, jsonC := false }
    else if !jsonRenderOk objs then
      RunResult.exit1 { structsH := true, decodersC := true, luaC := true, jsonC := false }
    else
      RunResult.ok { structsH := true, decodersC := true, luaC := true, jsonC := true }

/-! Packed-strategy decoder. -/

/-- The inner loop of the generated packed-strategy decoder, for one read
octet: `for (j = 0; j < 8 && count; j = j + width)` extracts
`(octet >> j) & mask` (mask 0x1 for width 1, 0x3 for width 2), allocating
one storage instance per extracted point; returns the extracted values and
the count still to produce. -/
def packedByte (width octet : Nat) : Nat → Nat → List Nat × Nat
  | _, 0 => ([], 0)
  | j, count + 1 =>
    if j < 8 then
      (((octet >>> j) &&& (2 ^ width - 1)) :: (packedByte width octet (j + width) count).1,
       (packedByte width octet (j + width) count).2)
    else ([], count + 1)

/-- The outer loop of the packed-strategy decoder: `int bytes = (count / 8)
+ 1` iterations, each reading one octet from the cursor (failure aborting
the decode) and running the inner extraction loop. -/
def packedBytes (width : Nat) : Nat → Nat → List Nat → Option (List Nat × List Nat)
  | 0, _, buf => some ([], buf)
  | _ + 1, _, [] => none
  | k + 1, count, octet :: buf =>
    match packedBytes width k (packedByte width octet 0 count).2 buf with
    | none => none
    | some (ps, rest) => some ((packedByte width octet 0 count).1 ++ ps, rest)

/-- The generated packed-strategy object decode: read one prefix value,
then run the byte loop with `bytes = count / 8 + 1`; on success returns
the extracted point values and the unread rest of the cursor. -/
def packedDecode (width pfxCode count : Nat) (buf : List Nat) :
    Option (List Nat × List Nat) :=
  match readPfx pfxCode buf with
  | none => none
  | some (_, buf1) => packedBytes width (count / 8 + 1) count buf1

/-- Number of extraction slots the inner loop has left when the loop
variable stands at j: how many j, j+width, ... lie below 8. -/
def slots (width j : Nat) : Nat := (8 - j + (width - 1)) / width

/-! Decode dispatch. -/

/-- Signal returned by the generated top-level DNP3DecodeObject entry
point: 0 for success, the unknown-object decoder event for an unmatched
(group, variation), the malformed event when the selected routine returns
failure. -/
inductive Signal
  | ok
  | unknownObject
  | malformed
  deriving DecidableEq, Repr

/-- The generated DNP3DecodeObject dispatch: one case per object of the
generation context, in order, the default case returning the
unknown-object event; a matched case runs the object's routine and maps
its failure to the malformed event.  The DNP3_OBJECT_CODE macro is not
under src/; modelled from the spec: the switch selects the routine by the
(group, variation) pair.  `run` abstracts whether the per-object routine
returns success on the call's cursor arguments. -/
def decodeObjectDispatch (cases : List (Nat × Nat)) (run : Nat → Nat → Bool)
    (g v : Nat) : Signal :=
  match cases.find? (fun c => c.1 == g && c.2 == v) with
  | none => Signal.unknownObject
  | some _ => if run g v then Signal.ok else Signal.malformed

/-! Lua binding emitter (util_lua_dnp3_objects_c_template). -/

/-- strlen of a C byte buffer: the number of bytes before the first NUL. -/
def strlenC (bs : List Nat) : Nat := (bs.takeWhile (fun b => b != 0)).length

/-- A value pushed onto the Lua stack: lua_pushinteger, lua_pushnumber, or
a length-bounded string (LuaPushStringBuffer and lua_pushlstring both push
an explicit byte count). -/
inductive LuaVal
  | int (n : Nat)
  | num (n : Nat)
  | lstr (bs : List Nat)
  deriving DecidableEq, Repr

/-- Key/value entries the generated DNP3PushPoint pushes for one field of
a decoded point, from the per-type branches of the Lua template: integer
types via lua_pushinteger, floats via lua_pushnumber, chararray and vstr4
via `LuaPushStringBuffer(data->name, strlen(data->name))` — the length
recomputed by strlen, not the stored runtime length — bytearray via
`lua_pushlstring(data->name, data->len_field)`, and bstr8 flattened to one
integer entry per subfield. -/
def luaPushField (vals : List (String × Val)) (f : Field) :
    List (String × LuaVal) :=
  match f.ftype with
  | .uint8 | .uint16 | .uint24 | .uint32 | .uint64
  | .int16 | .int32 | .dnp3time =>
    [(f.name, LuaVal.int (getNum vals f.name))]
  | .flt32 | .flt64 =>
    [(f.name, LuaVal.num (getNum vals f.name))]
  | .chararray _ =>
    [(f.name, LuaVal.lstr ((getStr vals f.name).take (strlenC (getStr vals f.name))))]
  | .vstr4 =>
    [(f.name, LuaVal.lstr ((getStr vals f.name).take (strlenC (getStr vals f.name))))]
  | .bytearray =>
    [(f.name, LuaVal.lstr ((getBytes vals f.name).take (getNum vals f.lenField)))]
  | .bstr8 subs =>
    subs.map fun s => (s.1, LuaVal.int (getNum vals s.1))

/-! JSON emitter (output_json_dnp3_objects_template). -/

/-- A value set into the JSON object: json_integer, json_real, a
json_string read up to its NUL, or the json_string of the Base64Encode
output (the encoder lives in util-crypt, outside src/, and is kept
abstract: the constructor records the raw bytes handed to it). -/
inductive JVal
  | int (n : Nat)
  | real (n : Nat)
  | str (bs : List Nat)
  | b64 (bs : List Nat)
  deriving DecidableEq, Repr

/-- Key/value entries the generated OutputJsonDNP3SetItem sets for one
field, from the per-type branches of the JSON template.  The key is the
literal first argument of json_object_set_new in each branch: the bare
field name for integers, floats, chararray and bstr8 subfields, but the
text `data->` followed by the field name for bytearray and vstr4.  A
chararray is copied into a NUL-terminated temporary of the stored runtime
length (json_string then reads up to the first NUL), or set as the empty
string when the runtime length is 0. -/
def jsonSetField (vals : List (String × Val)) (f : Field) :
    List (String × JVal) :=
  match f.ftype with
  | .uint8 | .uint16 | .uint24 | .uint32 | .uint64
  | .int16 | .int32 | .dnp3time =>
    [(f.name, JVal.int (getNum vals f.name))]
  | .flt32 | .flt64 =>
    [(f.name, JVal.real (getNum vals f.name))]
  | .bytearray =>
    [("data->" ++ f.name, JVal.b64 ((getBytes vals f.name).take (getNum vals f.lenField)))]
  | .vstr4 =>
    [("data->" ++ f.name, JVal.str ((getStr vals f.name).takeWhile (fun b => b != 0)))]
  | .chararray _ =>
    if 0 < getNum vals f.lenField then
      [(f.name, JVal.str (((getStr vals f.name).take (getNum vals f.lenField)).takeWhile
        (fun b => b != 0)))]
    else [(f.name, JVal.str [])]
  | .bstr8 subs =>
    subs.map fun s => (s.1, JVal.int (getNum vals s.1))

end DNP3

/-- C1: FALSIFIED on the code.  The claim says the embedded bstr8 group is
decoded with a cumulative shift, so byte 0b10110100 with widths [4,4]
yields subfields 4 and 11.  The generated code extracts every subfield at
shift 0 (the Jinja2 loop-local re-binding of `shift` is cleared at the end
of each iteration), so the byte yields 4 and 4; the cumulative-shift
extraction the claim describes would yield 4 and 11. -/
theorem DNP3.C1_embedded_bitfield_shift :
    DNP3.bstr8Fields 0 0xb4 [4, 4] = some [4, 4] ∧
    DNP3.bstr8FieldsSpec 0 0xb4 [4, 4] = some [4, 11] ∧
    (some [4, 4] : Option (List Nat)) ≠ some [4, 11] :=
  ⟨rfl, rfl, by decide⟩

namespace DNP3

/-- taking strlen many bytes of a buffer is taking its bytes up to the
first NUL. -/
theorem take_strlenC (bs : List Nat) :
    bs.take (strlenC bs) = bs.takeWhile (fun b => b != 0) := by
  induction bs with
  | nil => rfl
  | cons b bs ih =>
    by_cases hb : (b != 0) = true
    · simp [strlenC, List.takeWhile, hb] at ih ⊢
      exact ih
    · simp [strlenC, List.takeWhile, hb]

/-- uint32_t subtraction agrees with Nat subtraction when it does not
wrap. -/
theorem sub32_eq (a c : Nat) (ha : a < 2 ^ 32) (hc : c ≤ a) :
    sub32 a c = a - c := by
  have h32 : (2 : Nat) ^ 32 = 4294967296 := by norm_num
  unfold sub32
  rw [h32] at ha ⊢
  omega

end DNP3

/-- C2: the claim is right and the code is wrong (code bug).  The claim
says a chararray (length-prefixed text) field whose runtime length exceeds
the remaining bytes makes the decoder fail without reading past the
buffer, exactly as a bytearray field does.  The generated bytearray branch
does carry the bounds check and fails (err), but the generated chararray
branch has no such check: its memcpy reads past the remaining bytes and
the *len update wraps (the oob outcome).  Both objects below declare a
one-byte length field followed by the variable field; the buffer supplies
runtime length 5 with only 3 bytes remaining. -/
theorem DNP3.C2_chararray_no_bounds_check :
    DNP3.decodeRecords
        [{ ftype := .uint8, name := "vlen", lenField := "", lenFromPfx := false },
         { ftype := .chararray 255, name := "str", lenField := "vlen", lenFromPfx := false }]
        0 1 0 [5, 1, 2, 3] [] = DNP3.ObjR.oob [] [] ∧
    DNP3.decodeRecords
        [{ ftype := .uint8, name := "vlen", lenField := "", lenFromPfx := false },
         { ftype := .bytearray, name := "data", lenField := "vlen", lenFromPfx := false }]
        0 1 0 [5, 1, 2, 3] [] = DNP3.ObjR.err [] [] [1, 2, 3] ∧
    DNP3.ObjR.oob [] [] ≠ DNP3.ObjR.err [] [] [1, 2, 3] :=
  ⟨by decide, by decide, by decide⟩

/-- C4: FALSIFIED as stated.  The claim says the packed-strategy decoder
stops as soon as count points are produced, appending exactly count points
and consuming exactly the prefix plus ceil(count * width / 8) data bytes.
The generated loop instead always reads count / 8 + 1 data bytes: for
width 2 and count 5 it succeeds after a single data byte, appending only 4
points (not 5) and leaving one of the two supplied bytes unread (the claim
would consume ceil(10/8) = 2); for width 1 and count 8 it fails outright
when given exactly ceil(8/8) = 1 data byte, because it insists on reading
a second one. -/
theorem DNP3.C4_counterexample :
    DNP3.packedDecode 2 0 5 [255, 9] = some ([3, 3, 3, 3], [9]) ∧
    ([3, 3, 3, 3] : List Nat).length ≠ 5 ∧
    DNP3.packedDecode 1 0 8 [255] = none :=
  ⟨by decide, by decide, by decide⟩

/-- C5: FALSIFIED as stated.  The claim says the record-strategy error
path releases the partially built point including any variable-length
owned field storage already allocated into it.  The generated error path
is only `if (object != NULL) SCFree(object)`: the struct is freed but the
owned bytearray buffer already allocated into the failed record is not
(here the buffer of field data, allocated before the trailing uint8 read
fails), so the decode returns failure with that allocation leaked.  The
point produced by the first, successful record does remain in the output
list. -/
theorem DNP3.C5_counterexample :
    DNP3.decodeRecords
        [{ ftype := .uint8, name := "alen", lenField := "", lenFromPfx := false },
         { ftype := .bytearray, name := "data", lenField := "alen", lenFromPfx := false },
         { ftype := .uint8, name := "flag", lenField := "", lenFromPfx := false }]
        0 2 0 [2, 9, 9, 7, 2, 8, 8] []
      = DNP3.ObjR.err
          [{ index := 0, pfxCode := 0, pfxVal := 0,
             vals := [("flag", DNP3.Val.num 7), ("data", DNP3.Val.bytes [9, 9]),
                      ("alen", DNP3.Val.num 2)] }]
          ["data"] [] ∧
    (["data"] : List String) ≠ [] :=
  ⟨by decide, by decide⟩

/-- C8: FALSIFIED as stated.  The claim says every text field is pushed as
a length-bounded string buffer whose length is the stored runtime length,
not a length recomputed by scanning for a terminator.  The generated Lua
chararray branch pushes `LuaPushStringBuffer(data->name, strlen(data->name))`:
decoding runtime length 3 with bytes 97, 0, 98 stores length 3, but the
push uses strlen and truncates at the embedded NUL, pushing only byte 97
(length 1, not 3). -/
theorem DNP3.C8_counterexample :
    DNP3.decodeRecords
        [{ ftype := .uint8, name := "slen", lenField := "", lenFromPfx := false },
         { ftype := .chararray 255, name := "str", lenField := "slen", lenFromPfx := false }]
        0 1 0 [3, 97, 0, 98] []
      = DNP3.ObjR.ok
          [{ index := 0, pfxCode := 0, pfxVal := 0,
             vals := [("str", DNP3.Val.str [97, 0, 98]), ("slen", DNP3.Val.num 3)] }] [] ∧
    DNP3.luaPushField [("str", DNP3.Val.str [97, 0, 98]), ("slen", DNP3.Val.num 3)]
        { ftype := .chararray 255, name := "str", lenField := "slen", lenFromPfx := false }
      = [("str", DNP3.LuaVal.lstr [97])] ∧
    ([97] : List Nat).length ≠ 3 :=
  ⟨by decide, by decide, by decide⟩

/-- C9: FALSIFIED as stated.  The claim says that when any emitter fails,
none of the generated target files has been modified by that run.  The
emitters run in sequence, each writing its file before the next starts:
this schema (one object with an unknown constraint key, which only the
decoder template rejects) passes validation and the struct emitter, so the
structs header is rewritten, and only then does the decoder emitter raise
and exit nonzero — leaving the header modified by the failed run. -/
theorem DNP3.C9_counterexample :
    DNP3.runMain
        [{ group := 1, variation := 1,
           keys := ["group", "variation", "fields", "constraints"],
           unimplemented := false,
           fields := [{ keys := ["type", "name"], ftype := "uint8",
                        lenFromPfx := false, widths := [] }],
           constraints := ["weird_constraint"], extraFields := [], packed := false }]
      = DNP3.RunResult.exit1
          { structsH := true, decodersC := false, luaC := false, jsonC := false } ∧
    ({ structsH := true, decodersC := false, luaC := false, jsonC := false } : DNP3.GenFiles)
      ≠ { structsH := false, decodersC := false, luaC := false, jsonC := false } :=
  ⟨by decide, by decide⟩

/-- C10: the claim is right and the code is wrong (code bug).  The claim
says every emitted JSON entry keys on the bare declared field name.  The
template's bytearray and vstr4 branches instead pass the literal text
`data->` followed by the field name as the json_object_set_new key — the C
storage-access text leaked into the key string — while every other branch
(and the Lua emitter) uses the bare name. -/
theorem DNP3.C10_json_key_has_data_arrow :
    DNP3.jsonSetField [("data", DNP3.Val.bytes [1, 2]), ("dlen", DNP3.Val.num 2)]
        { ftype := .bytearray, name := "data", lenField := "dlen", lenFromPfx := false }
      = [("data->data", DNP3.JVal.b64 [1, 2])] ∧
    DNP3.jsonSetField [("id", DNP3.Val.str [65, 66, 67, 68])]
        { ftype := .vstr4, name := "id", lenField := "", lenFromPfx := false }
      = [("data->id", DNP3.JVal.str [65, 66, 67, 68])] ∧
    ("data->data" ≠ "data" ∧ "data->id" ≠ "id") :=
  ⟨by decide, by decide, by decide, by decide⟩

/-- C3: FALSIFIED as stated.  The claim says the validator checks the keys
of every field of the object, not only of fields up to some point, exiting
nonzero on any unknown key, and that a bad bit-field width sum fails with
a diagnostic naming the offending group and variation.  The field loop
`break`s as soon as it sees a field with len_from_prefix set, so the
second field's unknown key bogus is never examined and validation
succeeds; and a checked bit-field group whose widths sum to 7 dies on the
bare `assert(width == 8)`, a nonzero exit that names no group or
variation (PreR.assertFail carries none, unlike PreR.exitKey). -/
theorem DNP3.C3_counterexample :
    DNP3.preprocessObject
        { group := 1, variation := 2, keys := ["group", "variation", "fields"],
          unimplemented := false,
          fields :=
            [{ keys := ["type", "name", "len_from_prefix", "len_field"],
               ftype := "bytearray", lenFromPfx := true, widths := [] },
             { keys := ["type", "name", "bogus"], ftype := "uint8",
               lenFromPfx := false, widths := [] }],
          constraints := [], extraFields := [], packed := false }
      = DNP3.PreR.ok true ∧
    DNP3.preprocessObject
        { group := 3, variation := 4, keys := ["group", "variation", "fields"],
          unimplemented := false,
          fields := [{ keys := ["type", "name", "fields"], ftype := "bstr8",
                       lenFromPfx := false, widths := [4, 3] }],
          constraints := [], extraFields := [], packed := false }
      = DNP3.PreR.assertFail :=
  ⟨by decide, by decide⟩

/-- C3 (amended): the validator examines exactly the fields up to and
including the first field that sets len_from_prefix (the break): checking
a field list is checking that prefix, and when every examined field has
only allow-listed keys and every examined bit-field group sums to 8, the
loop accepts, deriving the track-offset mark exactly when the examined
prefix contains a len_from_prefix field.  (On an examined field the
unknown-key exit and the width assertion behave as in the claim, except
that the assertion names no group or variation.) -/
theorem DNP3.C3_amended (g v : Nat) (fs : List DNP3.RawField) :
    DNP3.checkFields g v fs = DNP3.checkFields g v (DNP3.checkedFields fs) ∧
    ((∀ f ∈ DNP3.checkedFields fs,
        DNP3.firstInvalid DNP3.validFieldKeys f.keys = none ∧
        (f.ftype = "bstr8" → DNP3.widthSum f.widths = 8)) →
      DNP3.checkFields g v fs
        = DNP3.PreR.ok ((DNP3.checkedFields fs).any (fun f => f.lenFromPfx))) := by
  induction fs with
  | nil => exact ⟨rfl, fun _ => rfl⟩
  | cons f fs ih =>
    by_cases hl : f.lenFromPfx
    · constructor
      · simp only [DNP3.checkedFields, hl, if_true]
        cases hk : DNP3.firstInvalid DNP3.validFieldKeys f.keys <;>
          simp [DNP3.checkFields, hk, hl]
      · intro hall
        have h1 := hall f (by simp [DNP3.checkedFields, hl])
        simp [DNP3.checkFields, h1.1, hl, DNP3.checkedFields]
    · have hcf : DNP3.checkedFields (f :: fs) = f :: DNP3.checkedFields fs := by
        simp [DNP3.checkedFields, hl]
      constructor
      · rw [hcf]
        cases hk : DNP3.firstInvalid DNP3.validFieldKeys f.keys with
        | some k => simp [DNP3.checkFields, hk]
        | none =>
          by_cases hb : f.ftype = "bstr8"
          · by_cases hw : DNP3.widthSum f.widths = 8
            · simp [DNP3.checkFields, hk, hl, hb, hw, ih.1]
            · simp [DNP3.checkFields, hk, hl, hb, hw]
          · simp [DNP3.checkFields, hk, hl, hb, ih.1]
      · intro hall
        rw [hcf] at hall
        have h1 := hall f (by simp)
        have hrest := ih.2 (fun x hx => hall x (by simp [hx]))
        by_cases hb : f.ftype = "bstr8"
        · simp [DNP3.checkFields, h1.1, hl, hb, h1.2 hb, hrest, hcf, hl]
        · simp [DNP3.checkFields, h1.1, hl, hb, hrest, hcf]

/-- C8 (amended): the Lua emitter pushes a byte array as a length-bounded
string of the stored runtime length, but pushes chararray and vstr4 text
as a string buffer whose length strlen recomputes, i.e. the stored bytes
truncated at the first embedded NUL; integers are pushed as integers,
floats as numbers, and bstr8 subfields as individual integer entries. -/
theorem DNP3.C8_amended (vals : List (String × DNP3.Val)) (name lf : String) (sz : Nat)
    (subs : List (String × Nat)) :
    DNP3.luaPushField vals { ftype := .chararray sz, name := name, lenField := lf, lenFromPfx := false }
      = [(name, DNP3.LuaVal.lstr ((DNP3.getStr vals name).takeWhile (fun b => b != 0)))] ∧
    DNP3.luaPushField vals { ftype := .vstr4, name := name, lenField := lf, lenFromPfx := false }
      = [(name, DNP3.LuaVal.lstr ((DNP3.getStr vals name).takeWhile (fun b => b != 0)))] ∧
    DNP3.luaPushField vals { ftype := .bytearray, name := name, lenField := lf, lenFromPfx := false }
      = [(name, DNP3.LuaVal.lstr ((DNP3.getBytes vals name).take (DNP3.getNum vals lf)))] ∧
    DNP3.luaPushField vals { ftype := .uint32, name := name, lenField := lf, lenFromPfx := false }
      = [(name, DNP3.LuaVal.int (DNP3.getNum vals name))] ∧
    DNP3.luaPushField vals { ftype := .flt32, name := name, lenField := lf, lenFromPfx := false }
      = [(name, DNP3.LuaVal.num (DNP3.getNum vals name))] ∧
    DNP3.luaPushField vals { ftype := .bstr8 subs, name := name, lenField := lf, lenFromPfx := false }
      = subs.map (fun s => (s.1, DNP3.LuaVal.int (DNP3.getNum vals s.1))) := by
  refine ⟨?_, ?_, rfl, rfl, rfl, rfl⟩
  · simp [DNP3.luaPushField, DNP3.take_strlenC]
  · simp [DNP3.luaPushField, DNP3.take_strlenC]

/-- C9 (amended): every generation-time failure exits nonzero, and a
schema-validation failure commits no output; but the emitters write their
target files in sequence, so while the failing emitter's own target (and
all later ones) is untouched — the JSON file is never written by a failing
run, and each file is only written after all files before it — a failure
in a later emitter leaves the files of earlier emitters already modified
by the run. -/
theorem DNP3.C9_amended (raws : List DNP3.RawObject) (files : DNP3.GenFiles)
    (h : DNP3.runMain raws = DNP3.RunResult.exit1 files) :
    files.jsonC = false ∧
    (files.luaC = true → files.decodersC = true) ∧
    (files.decodersC = true → files.structsH = true) ∧
    (DNP3.mainObjects raws = none →
      files = { structsH := false, decodersC := false, luaC := false, jsonC := false }) := by
  unfold DNP3.runMain at h
  cases hm : DNP3.mainObjects raws with
  | none =>
    rw [hm] at h
    injection h with h2
    subst h2
    exact ⟨rfl, fun hx => hx, fun hx => hx, fun _ => rfl⟩
  | some objs =>
    rw [hm] at h
    dsimp only at h
    split_ifs at h
    · injection h with h2
      subst h2
      exact ⟨rfl, fun hx => hx, fun hx => hx, fun hx => by cases hx⟩
    · injection h with h2
      subst h2
      exact ⟨rfl, fun hx => hx, fun _ => rfl, fun hx => by cases hx⟩
    · injection h with h2
      subst h2
      exact ⟨rfl, fun _ => rfl, fun _ => rfl, fun hx => by cases hx⟩
    · injection h with h2
      subst h2
      exact ⟨rfl, fun _ => rfl, fun _ => rfl, fun hx => by cases hx⟩

/-- C9 amended witness: a schema whose single object carries the unknown
key bogus fails validation, and the failed run has modified no file. -/
theorem DNP3.C9_amended_witness :
    ({ structsH := false, decodersC := false, luaC := false, jsonC := false } : DNP3.GenFiles).jsonC
      = false :=
  (DNP3.C9_amended
    [{ group := 2, variation := 2, keys := ["group", "variation", "fields", "bogus"],
       unimplemented := false, fields := [], constraints := [], extraFields := [],
       packed := false }]
    { structsH := false, decodersC := false, luaC := false, jsonC := false } (by decide)).1

/-- C3 amended witness: a single field with allow-listed keys and
len_from_prefix set passes validation with the track-offset mark. -/
theorem DNP3.C3_amended_witness :
    DNP3.checkFields 1 2
        [{ keys := ["type", "name", "len_from_prefix", "len_field"],
           ftype := "bytearray", lenFromPfx := true, widths := [] }]
      = DNP3.PreR.ok true := by
  have h := (DNP3.C3_amended 1 2
    [{ keys := ["type", "name", "len_from_prefix", "len_field"],
       ftype := "bytearray", lenFromPfx := true, widths := [] }]).2 (by decide)
  exact h.trans (by decide)

namespace DNP3

/-- Stepping the packed inner loop consumes one extraction slot while the
loop variable is below 8. -/
theorem slots_step (w j : Nat) (hw : w = 1 ∨ w = 2) (hj : j < 8) :
    slots w j = slots w (j + w) + 1 := by
  rcases hw with rfl | rfl <;> simp only [slots] <;> omega

/-- No extraction slots remain once the loop variable reaches 8. -/
theorem slots_hi (w j : Nat) (hw : w = 1 ∨ w = 2) (hj : ¬ j < 8) :
    slots w j = 0 := by
  rcases hw with rfl | rfl <;> simp only [slots] <;> omega

/-- The packed inner loop extracts one point per remaining slot, bounded
by the count still to produce, and decrements the count accordingly. -/
theorem packedByte_len (w octet : Nat) (hw : w = 1 ∨ w = 2) :
    ∀ (c j : Nat),
      (packedByte w octet j c).1.length = min c (slots w j) ∧
      (packedByte w octet j c).2 = c - min c (slots w j) := by
  intro c
  induction c with
  | zero => intro j; simp [packedByte]
  | succ c ih =>
    intro j
    by_cases hj : j < 8
    · obtain ⟨h1, h2⟩ := ih (j + w)
      rw [slots_step w j hw hj]
      simp only [packedByte, if_pos hj, List.length_cons, h1, h2]
      constructor <;> omega
    · rw [slots_hi w j hw hj]
      simp only [packedByte, if_neg hj, List.length_nil]
      constructor <;> omega

/-- Chunked minimum: consuming one chunk of s and then up to m more is
consuming up to m + s in total. -/
theorem min_chunk (c s m : Nat) : min c s + min (c - min c s) m = min c (m + s) := by
  omega

/-- The packed byte loop, given k readable bytes, consumes exactly k bytes
and extracts min count (k * slots) points. -/
theorem packedBytes_spec (w : Nat) (hw : w = 1 ∨ w = 2) :
    ∀ (k count : Nat) (buf : List Nat), k ≤ buf.length →
      ∃ ps, packedBytes w k count buf = some (ps, buf.drop k) ∧
            ps.length = min count (k * slots w 0) := by
  intro k
  induction k with
  | zero =>
    intro count buf _
    exact ⟨[], by simp [packedBytes], by simp⟩
  | succ k ih =>
    intro count buf hlen
    cases buf with
    | nil => simp at hlen
    | cons octet buf =>
      obtain ⟨h1, h2⟩ := packedByte_len w octet hw count 0
      obtain ⟨ps, hps, hpl⟩ :=
        ih (packedByte w octet 0 count).2 buf (by simpa using hlen)
      refine ⟨(packedByte w octet 0 count).1 ++ ps, ?_, ?_⟩
      · simp only [packedBytes, hps, List.drop_succ_cons]
      · rw [h2] at hpl
        rw [List.length_append, h1, hpl, Nat.succ_mul]
        exact min_chunk count (slots w 0) (k * slots w 0)

end DNP3

/-- C4 (amended): for width 1 or 2, the packed decoder reads one prefix
value and then always count / 8 + 1 data bytes (failing if fewer remain,
even when count points have already been extracted); on success it
consumes exactly the prefix plus count / 8 + 1 data bytes and appends
min count ((count / 8 + 1) * (8 / width)) points — exactly count for width
1, but possibly fewer for width 2. -/
theorem DNP3.C4_amended (w pfxCode count p : Nat) (buf buf1 : List Nat)
    (hw : w = 1 ∨ w = 2) (hp : DNP3.readPfx pfxCode buf = some (p, buf1))
    (hlen : count / 8 + 1 ≤ buf1.length) :
    ∃ ps, DNP3.packedDecode w pfxCode count buf = some (ps, buf1.drop (count / 8 + 1)) ∧
          ps.length = min count ((count / 8 + 1) * (8 / w)) := by
  obtain ⟨ps, h, hl⟩ := DNP3.packedBytes_spec w hw (count / 8 + 1) count buf1 hlen
  have hsw : DNP3.slots w 0 = 8 / w := by rcases hw with rfl | rfl <;> rfl
  refine ⟨ps, ?_, ?_⟩
  · simp only [DNP3.packedDecode, hp]
    exact h
  · rw [hl, hsw]

/-- C4 amended witness: width 1, count 3, one data byte available. -/
theorem DNP3.C4_amended_witness :
    (DNP3.packedDecode 1 0 3 [5]).map (fun r => (r.1.length, r.2)) = some (3, []) := by
  obtain ⟨ps, heq, hlen⟩ :=
    DNP3.C4_amended 1 0 3 0 [5] [5] (Or.inl rfl) rfl (by decide)
  rw [heq]
  simp [hlen]

/-- C5 (amended): when the record-strategy decode loop returns failure,
every point appended to the output list before the call (and by the prior
successful records of the call) remains in the returned list — the input
list is a prefix of it; the failed record's struct is freed by the error
path, while its owned bytearray allocations are returned in the leaked
component (not freed, see the C5 counterexample). -/
theorem DNP3.C5_amended (fields : List DNP3.Field) (pfxCode : Nat) :
    ∀ (count index : Nat) (buf : List Nat) (points pts : List DNP3.Point)
      (leaked : List String) (rest : List Nat),
      DNP3.decodeRecords fields pfxCode count index buf points
        = DNP3.ObjR.err pts leaked rest →
      points <+: pts := by
  intro count
  induction count with
  | zero =>
    intro index buf points pts leaked rest h
    simp [DNP3.decodeRecords] at h
  | succ count ih =>
    intro index buf points pts leaked rest h
    simp only [DNP3.decodeRecords] at h
    cases hp : DNP3.readPfx pfxCode buf with
    | none =>
      rw [hp] at h
      dsimp only at h
      injection h with h1 h2 h3
      subst h1
      exact List.prefix_rfl
    | some pb =>
      obtain ⟨p, buf1⟩ := pb
      rw [hp] at h
      dsimp only at h
      cases hd : DNP3.decodeFieldList p buf1.length fields
          { buf := buf1, vals := [], owned := [] } with
      | ok st =>
        rw [hd] at h
        dsimp only at h
        exact (List.prefix_append points _).trans
          (ih (index + 1) st.buf _ pts leaked rest h)
      | err st =>
        rw [hd] at h
        dsimp only at h
        injection h with h1 h2 h3
        subst h1
        exact List.prefix_rfl
      | oob st =>
        rw [hd] at h
        dsimp only at h
        cases h

/-- C5 amended witness: two requested records over a one-byte buffer; the
first succeeds and its point survives the second record's failure. -/
theorem DNP3.C5_amended_witness :
    ([] : List DNP3.Point) <+:
      [{ index := 0, pfxCode := 0, pfxVal := 0, vals := [("a", DNP3.Val.num 7)] }] :=
  DNP3.C5_amended [{ ftype := .uint8, name := "a", lenField := "", lenFromPfx := false }] 0
    2 0 [7] []
    [{ index := 0, pfxCode := 0, pfxVal := 0, vals := [("a", DNP3.Val.num 7)] }]
    [] [] (by decide)

namespace DNP3

/-- The field validation loop never reports an object as unimplemented. -/
theorem checkFields_ne_dropped (g v : Nat) :
    ∀ fs, checkFields g v fs ≠ PreR.dropped := by
  intro fs
  induction fs with
  | nil => simp [checkFields]
  | cons f fs ih =>
    cases hk : firstInvalid validFieldKeys f.keys with
    | some k => simp [checkFields, hk]
    | none =>
      simp only [checkFields, hk]
      split_ifs <;> first | exact ih | simp

/-- Only an object carrying the unimplemented marker is dropped. -/
theorem preprocess_dropped_unimpl (o : RawObject)
    (h : preprocessObject o = PreR.dropped) : o.unimplemented = true := by
  cases hb : o.unimplemented with
  | true => rfl
  | false =>
    exfalso
    simp only [preprocessObject, hb, Bool.false_eq_true, if_false] at h
    cases hk : firstInvalid validKeys o.keys with
    | some k => rw [hk] at h; cases h
    | none =>
      rw [hk] at h
      exact checkFields_ne_dropped o.group o.variation o.fields h

/-- An object accepted by the validator is implemented. -/
theorem preprocess_ok_impl (o : RawObject) (t : Bool)
    (h : preprocessObject o = PreR.ok t) : o.unimplemented = false := by
  cases hb : o.unimplemented with
  | false => rfl
  | true =>
    exfalso
    simp only [preprocessObject, hb, if_true] at h
    cases h

/-- When validation of the whole schema succeeds, the object list handed
to the emitters is exactly the schema with the unimplemented objects
filtered out, in order. -/
theorem mainObjects_filter :
    ∀ (raws objs : List RawObject), mainObjects raws = some objs →
      objs = raws.filter (fun o => !o.unimplemented) := by
  intro raws
  induction raws with
  | nil =>
    intro objs h
    simp only [mainObjects] at h
    injection h with h2
    subst h2
    rfl
  | cons o os ih =>
    intro objs h
    simp only [mainObjects] at h
    cases hp : preprocessObject o with
    | dropped =>
      rw [hp] at h
      dsimp only at h
      have hu : o.unimplemented = true := preprocess_dropped_unimpl o hp
      simp [List.filter_cons, hu, ih objs h]
    | ok t =>
      rw [hp] at h
      dsimp only at h
      cases hm : mainObjects os with
      | none => rw [hm] at h; cases h
      | some l =>
        rw [hm] at h
        dsimp only [Option.map] at h
        injection h with h2
        have hu : o.unimplemented = false := preprocess_ok_impl o t hp
        rw [← h2]
        simp [List.filter_cons, hu, ih l hm]
    | exitKey g v k =>
      rw [hp] at h
      cases h
    | assertFail =>
      rw [hp] at h
      cases h

end DNP3

/-- C6: CONFIRMED.  The generated dispatch, over the case list the
template emits (one case per object of the validated, unimplemented-free
model, in order), returns the unknown-object signal exactly for the
(group, variation) pairs outside that list — a total function, never a
crash — and for a listed pair returns ok when the selected routine
succeeds and malformed when it fails; and the case list covers exactly the
non-unimplemented objects of the schema. -/
theorem DNP3.C6_dispatch (raws objs : List DNP3.RawObject) (run : Nat → Nat → Bool)
    (g v : Nat) (h : DNP3.mainObjects raws = some objs) :
    (DNP3.decodeObjectDispatch (objs.map fun o => (o.group, o.variation)) run g v
        = DNP3.Signal.unknownObject ↔
      (g, v) ∉ objs.map fun o => (o.group, o.variation)) ∧
    ((g, v) ∈ objs.map (fun o => (o.group, o.variation)) →
      DNP3.decodeObjectDispatch (objs.map fun o => (o.group, o.variation)) run g v
        = if run g v then DNP3.Signal.ok else DNP3.Signal.malformed) ∧
    objs = raws.filter fun o => !o.unimplemented := by
  refine ⟨?_, ?_, DNP3.mainObjects_filter raws objs h⟩
  · unfold DNP3.decodeObjectDispatch
    cases hf : (objs.map fun o => (o.group, o.variation)).find?
        (fun c => c.1 == g && c.2 == v) with
    | none =>
      dsimp only
      constructor
      · intro _ hmem
        have hx := List.find?_eq_none.mp hf (g, v) hmem
        simp at hx
      · intro _
        rfl
    | some c =>
      dsimp only
      constructor
      · intro hcontra
        cases hrun : run g v <;> rw [hrun] at hcontra <;> simp at hcontra
      · intro hnot
        exfalso
        have hc := List.find?_some hf
        have hcmem := List.mem_of_find?_eq_some hf
        have hcgv : c = (g, v) := by
          obtain ⟨c1, c2⟩ := c
          simp only [beq_iff_eq, Bool.and_eq_true] at hc
          simp [hc.1, hc.2]
        exact hnot (hcgv ▸ hcmem)
  · intro hmem
    unfold DNP3.decodeObjectDispatch
    cases hf : (objs.map fun o => (o.group, o.variation)).find?
        (fun c => c.1 == g && c.2 == v) with
    | none =>
      exfalso
      have hx := List.find?_eq_none.mp hf (g, v) hmem
      simp at hx
    | some c =>
      rfl

/-- C6 witness: a schema with one implemented object (group 1, variation
2) and one unimplemented object dispatches (1, 2) to its routine, whose
success yields the ok signal. -/
theorem DNP3.C6_dispatch_witness :
    DNP3.decodeObjectDispatch [(1, 2)] (fun g _ => g == 1) 1 2 = DNP3.Signal.ok := by
  have h := (DNP3.C6_dispatch
      [{ group := 1, variation := 2, keys := ["group", "variation", "fields"],
         unimplemented := false,
         fields := [{ keys := ["type", "name"], ftype := "uint8", lenFromPfx := false,
                      widths := [] }],
         constraints := [], extraFields := [], packed := false },
       { group := 9, variation := 9, keys := ["group", "variation"],
         unimplemented := true, fields := [], constraints := [], extraFields := [],
         packed := false }]
      [{ group := 1, variation := 2, keys := ["group", "variation", "fields"],
         unimplemented := false,
         fields := [{ keys := ["type", "name"], ftype := "uint8", lenFromPfx := false,
                      widths := [] }],
         constraints := [], extraFields := [], packed := false }]
      (fun g _ => g == 1) 1 2 (by decide)).2.1 (by decide)
  exact h.trans (by decide)

/-- C7: CONFIRMED.  For a field with len_from_prefix set, the generated
decoder computes the runtime length as the decoded prefix minus the bytes
consumed since the start of the record, via the remaining-length snapshot
taken just after the prefix read: with no intervening field the length is
the full prefix, and the decoder consumes exactly that many bytes, stores
it in the named length field and leaves the rest of the cursor (zero bytes
when exactly prefix bytes follow); with one uint8 field consumed in
between, the computed length is prefix minus one. -/
theorem DNP3.C7_len_from_prefix (b a : Nat) (rest : List Nat)
    (h1 : 0 < b % 256) (h2 : b % 256 ≤ rest.length) :
    (DNP3.decodeRecords
        [{ ftype := .bytearray, name := "data", lenField := "blen", lenFromPfx := true }]
        1 1 0 (b :: rest) []
      = DNP3.ObjR.ok
          [{ index := 0, pfxCode := 1, pfxVal := b % 256,
             vals := [("data", DNP3.Val.bytes (rest.take (b % 256))),
                      ("blen", DNP3.Val.num (b % 256))] }]
          (rest.drop (b % 256))) ∧
    (2 ≤ b % 256 → b % 256 - 1 ≤ rest.length →
      DNP3.decodeRecords
          [{ ftype := .uint8, name := "a", lenField := "", lenFromPfx := false },
           { ftype := .bytearray, name := "data", lenField := "blen", lenFromPfx := true }]
          1 1 0 (b :: a :: rest) []
        = DNP3.ObjR.ok
            [{ index := 0, pfxCode := 1, pfxVal := b % 256,
               vals := [("data", DNP3.Val.bytes (rest.take (b % 256 - 1))),
                        ("blen", DNP3.Val.num (b % 256 - 1)),
                        ("a", DNP3.Val.num (a % 256))] }]
            (rest.drop (b % 256 - 1))) := by
  have hlt : b % 256 < 2 ^ 32 :=
    lt_trans (Nat.mod_lt b (by norm_num)) (by norm_num)
  have hs0 : DNP3.sub32 (b % 256) 0 = b % 256 := by
    rw [DNP3.sub32_eq (b % 256) 0 hlt (Nat.zero_le _), Nat.sub_zero]
  constructor
  · have hnl : ¬ rest.length < b % 256 := by omega
    simp [DNP3.decodeRecords, DNP3.readPfx, DNP3.readBytesLE, DNP3.decodeFieldList,
          DNP3.decodeField, DNP3.getNum, List.lookup, hs0, h1, hnl, Nat.sub_self]
  · intro h3 h4
    have hs1 : DNP3.sub32 (b % 256) 1 = b % 256 - 1 := by
      rw [DNP3.sub32_eq (b % 256) 1 hlt (by omega)]
    have hp1 : 0 < b % 256 - 1 := by omega
    have hnl1 : ¬ rest.length < b % 256 - 1 := by omega
    simp [DNP3.decodeRecords, DNP3.readPfx, DNP3.readBytesLE, DNP3.decodeFieldList,
          DNP3.decodeField, DNP3.getNum, List.lookup, hs1, hp1, hnl1,
          Nat.add_sub_cancel_left]

/-- C7 witness: decoded prefix 5 with exactly five following bytes:
consumes all five, stores length 5, leaves zero remaining bytes. -/
theorem DNP3.C7_witness :
    DNP3.decodeRecords
        [{ ftype := .bytearray, name := "data", lenField := "blen", lenFromPfx := true }]
        1 1 0 [5, 1, 2, 3, 4, 5] []
      = DNP3.ObjR.ok
          [{ index := 0, pfxCode := 1, pfxVal := 5,
             vals := [("data", DNP3.Val.bytes [1, 2, 3, 4, 5]),
                      ("blen", DNP3.Val.num 5)] }]
          [] := by
  have h := (DNP3.C7_len_from_prefix 5 0 [1, 2, 3, 4, 5] (by decide) (by decide)).1
  exact h.trans (by decide)
